import Mathlib

/-
Verification of the countdown program in src/backend/images/image1/main.py.

The program is embedded shallowly as a trace of effects: each `print(...)`
becomes an `Event.out` (primary stream) or `Event.err` (secondary stream)
event, and each `time.sleep(1)` becomes an `Event.sleep 1` event.  The
`for i in range(30, 0, -1)` loop is embedded via `pyRangeDown`, a faithful
rendering of Python's `range(start, stop, -1)` for naturals.
-/

namespace Maestro

/-- One observable effect of the program: a line to the primary stream,
a line to the secondary (error) stream, or a suspension of `seconds`. -/
inductive Event where
  | out (line : String)
  | err (line : String)
  | sleep (seconds : Nat)
deriving DecidableEq

/-- Python `range(start, stop, -1)` for naturals with `start ≥ stop`:
the values `start, start-1, ..., stop+1`. -/
def pyRangeDown (start stop : Nat) : List Nat :=
  (List.range' (stop + 1) (start - stop)).reverse

/-- The per-iteration progress line `print(f"Waiting... {i} seconds remaining")`. -/
def waitingMsg (i : Nat) : String :=
  "Waiting... " ++ toString i ++ " seconds remaining"

/-- The checkpoint line printed to stderr at i ∈ (30, 20, 10, 1). -/
def checkpointMsg (i : Nat) : String :=
  "STDERR: checkpoint at " ++ toString i ++ " seconds remaining"

/-- The start line. -/
def startMsg : String := "Starting 30-second wait..."

/-- The completion line. -/
def doneMsg : String := "30 seconds have passed! Exiting..."

/-- The final stderr status line. -/
def finishedMsg : String := "STDERR: finished countdown without errors"

/-- The tuple `(30, 20, 10, 1)` tested by `if i in (30, 20, 10, 1)`. -/
def checkpoints : List Nat := [30, 20, 10, 1]

/-- The effects of one loop iteration with counter `i`: the progress print,
the conditional checkpoint print to stderr, then `time.sleep(1)`. -/
def iterEvents (i : Nat) : List Event :=
  [Event.out (waitingMsg i)]
    ++ (if i ∈ checkpoints then [Event.err (checkpointMsg i)] else [])
    ++ [Event.sleep 1]

/-- The full effect trace of `main()`: start line, the loop over
`range(30, 0, -1)`, completion line, final stderr line. -/
def mainEvents : List Event :=
  Event.out startMsg
    :: ((pyRangeDown 30 0).map iterEvents).flatten
    ++ [Event.out doneMsg, Event.err finishedMsg]

/-- Projection to the primary-stream line, when the event is one. -/
def outLine : Event → Option String
  | Event.out s => some s
  | _ => none

/-- Projection to the secondary-stream line, when the event is one. -/
def errLine : Event → Option String
  | Event.err s => some s
  | _ => none

/-- Projection to the suspension duration, when the event is a sleep. -/
def sleepSecs : Event → Option Nat
  | Event.sleep n => some n
  | _ => none

/-- The primary output stream of a run: the `out` lines of the trace in order. -/
def stdoutLines : List String := mainEvents.filterMap outLine

/-- The secondary output stream of a run: the `err` lines of the trace in order. -/
def stderrLines : List String := mainEvents.filterMap errLine

/-- The sequence of suspension durations of a run, in order. -/
def sleepDurations : List Nat := mainEvents.filterMap sleepSecs

/-- `main()` statement by statement in an error monad: every statement of
the source (prints and sleeps) is infallible, so each step is `Except.ok`. -/
def mainE : Except String (List Event) :=
  (Except.ok [Event.out startMsg] : Except String (List Event))
    |>.bind (fun w =>
      (pyRangeDown 30 0).foldl
        (fun acc i => acc.bind (fun t => Except.ok (t ++ iterEvents i)))
        (Except.ok w))
    |>.bind (fun w => Except.ok (w ++ [Event.out doneMsg]))
    |>.bind (fun w => Except.ok (w ++ [Event.err finishedMsg]))

/-- The process-level run: the trace together with the exit status.  Per
CPython semantics, falling off the end of the main module without an
uncaught exception exits with status 0; an uncaught exception would not. -/
def processRun : List Event × Nat :=
  match mainE with
  | Except.ok evs => (evs, 0)
  | Except.error _ => ([], 1)

/-- An event the source can emit: a stream write, or a one-second sleep. -/
def isFixedEffect : Event → Bool
  | Event.out _ => true
  | Event.err _ => true
  | Event.sleep n => n == 1

/-- The effect of executing the module top level under a given `__name__`:
the `if __name__ == "__main__": main()` guard runs `main()` only when the
module is the entry point, and nothing otherwise (the other top-level
statements are imports and a function definition, which emit nothing). -/
def moduleTopLevel (name : String) : List Event :=
  if name = "__main__" then mainEvents else []

/-- The external world the program touches: the two append-only streams and
the accumulated suspension time. -/
structure World where
  outHist : List String
  errHist : List String
  sleptTotal : Nat
deriving DecidableEq

/-- How a single event updates the world. -/
def applyEvent (w : World) : Event → World
  | Event.out s => { w with outHist := w.outHist ++ [s] }
  | Event.err s => { w with errHist := w.errHist ++ [s] }
  | Event.sleep n => { w with sleptTotal := w.sleptTotal + n }

/-- Executing one full run of the program against a world. -/
def execRun (w : World) : World := mainEvents.foldl applyEvent w

/-- The linear state machine of `main()`'s control flow. -/
inductive CState where
  | start
  | counting (n : Nat)
  | done
deriving DecidableEq

/-- One control-flow step: entering the loop binds the counter to 30; an
iteration with counter `n > 1` continues with `n - 1`; the iteration with
counter 1 exits the loop; the terminal state has no successor. -/
def cstep : CState → Option CState
  | CState.start => some (CState.counting 30)
  | CState.counting n => if 1 < n then some (CState.counting (n - 1)) else some CState.done
  | CState.done => none

/-- The full trajectory of states visited by a run. -/
def cstates : List CState :=
  CState.start :: (pyRangeDown 30 0).map CState.counting ++ [CState.done]

theorem foldl_applyEvent_outHist (es : List Event) (w : World) :
    (es.foldl applyEvent w).outHist = w.outHist ++ es.filterMap outLine := by
  induction es generalizing w with
  | nil => simp
  | cons e es ih =>
    cases e <;> simp [applyEvent, outLine, ih]

theorem foldl_applyEvent_errHist (es : List Event) (w : World) :
    (es.foldl applyEvent w).errHist = w.errHist ++ es.filterMap errLine := by
  induction es generalizing w with
  | nil => simp
  | cons e es ih =>
    cases e <;> simp [applyEvent, errLine, ih]

/-- C1: the primary stream of every uninterrupted run is exactly these 32
lines in order: the start line, the 30 progress lines for n = 30 down to 1
(strictly decreasing by 1), and the completion line; nothing else is
emitted to the primary stream. -/
theorem primary_stream_exact :
    stdoutLines =
      "Starting 30-second wait..."
        :: (List.range 30).map
            (fun k => "Waiting... " ++ toString (30 - k) ++ " seconds remaining")
        ++ ["30 seconds have passed! Exiting..."]
      ∧ stdoutLines.length = 32 := by
  decide

/-- C2: the secondary stream is exactly the four checkpoint lines for
n = 30, 20, 10, 1 in decreasing order followed by the finished line, and
an iteration with counter i emits a checkpoint line exactly when i is one
of the four checkpoint values. -/
theorem secondary_stream_exact :
    stderrLines =
      ["STDERR: checkpoint at 30 seconds remaining",
       "STDERR: checkpoint at 20 seconds remaining",
       "STDERR: checkpoint at 10 seconds remaining",
       "STDERR: checkpoint at 1 seconds remaining",
       "STDERR: finished countdown without errors"]
      ∧ (pyRangeDown 30 0).all
          (fun i => (iterEvents i).filterMap errLine
            == if i ∈ checkpoints then [checkpointMsg i] else []) = true := by
  decide

/-- C3: in the combined program-order trace, each checkpoint stderr line
appears strictly after the primary progress line for the same n and
strictly before the next primary line (the progress line for n-1, or the
completion line when n = 1), and the finished stderr line appears after
the completion line. -/
theorem checkpoint_interleaving :
    checkpoints.all (fun n => mainEvents.contains (Event.err (checkpointMsg n))) = true
      ∧ mainEvents.indexOf (Event.out (waitingMsg 30)) < mainEvents.indexOf (Event.err (checkpointMsg 30))
      ∧ mainEvents.indexOf (Event.err (checkpointMsg 30)) < mainEvents.indexOf (Event.out (waitingMsg 29))
      ∧ mainEvents.indexOf (Event.out (waitingMsg 20)) < mainEvents.indexOf (Event.err (checkpointMsg 20))
      ∧ mainEvents.indexOf (Event.err (checkpointMsg 20)) < mainEvents.indexOf (Event.out (waitingMsg 19))
      ∧ mainEvents.indexOf (Event.out (waitingMsg 10)) < mainEvents.indexOf (Event.err (checkpointMsg 10))
      ∧ mainEvents.indexOf (Event.err (checkpointMsg 10)) < mainEvents.indexOf (Event.out (waitingMsg 9))
      ∧ mainEvents.indexOf (Event.out (waitingMsg 1)) < mainEvents.indexOf (Event.err (checkpointMsg 1))
      ∧ mainEvents.indexOf (Event.err (checkpointMsg 1)) < mainEvents.indexOf (Event.out doneMsg)
      ∧ mainEvents.indexOf (Event.out doneMsg) < mainEvents.indexOf (Event.err finishedMsg) := by
  decide

/-- C4: the run performs exactly 30 suspensions of exactly 1 second each
(one per iteration, as the last effect of that iteration, after its
messages), so the total suspended time is 30 seconds. -/
theorem sleep_effects :
    sleepDurations = List.replicate 30 1
      ∧ sleepDurations.sum = 30
      ∧ (pyRangeDown 30 0).length = 30
      ∧ (pyRangeDown 30 0).all
          (fun i => (iterEvents i).getLast? == some (Event.sleep 1)) = true := by
  decide

/-- C5: the loop counter takes exactly the integer values 30, 29, ..., 1:
it starts at 30, decreases by exactly 1 between consecutive iterations,
ends at 1, and every value lies in the inclusive range 1 to 30 (never 0
or below at any iteration). -/
theorem counter_invariant :
    (pyRangeDown 30 0).head? = some 30
      ∧ (pyRangeDown 30 0).getLast? = some 1
      ∧ (pyRangeDown 30 0).all (fun v => decide (1 ≤ v) && decide (v ≤ 30)) = true
      ∧ ((pyRangeDown 30 0).zip ((pyRangeDown 30 0).drop 1)).all
          (fun p => p.1 == p.2 + 1) = true
      ∧ (pyRangeDown 30 0).length = 30 := by
  decide

/-- C6: control flow is the terminating linear state machine Start →
Counting 30 → ... → Counting 1 → Done: the trajectory chains under cstep,
starts at Start, ends at the terminal Done (which has no successor),
has 32 pairwise-distinct states (so 30 loop iterations, none revisited),
and its counting values are exactly the loop's counter values. -/
theorem control_flow_linear :
    (cstates.zip (cstates.drop 1)).all (fun p => cstep p.1 == some p.2) = true
      ∧ cstates.head? = some CState.start
      ∧ cstates.getLast? = some CState.done
      ∧ cstates.Nodup
      ∧ cstates.length = 32
      ∧ cstep CState.done = none
      ∧ cstates = CState.start :: (pyRangeDown 30 0).map CState.counting ++ [CState.done] := by
  decide

/-- C7: an uninterrupted run completes with exit status 0 and the full
trace; no other exit status is produced, since the run cannot err. -/
theorem exit_status_zero :
    processRun = (mainEvents, 0) ∧ processRun.2 = 0 := by
  decide

/-- C8: run() is total and infallible: its statement-by-statement
embedding in an error monad completes with ok and the full trace — no
error branch is reachable — and every effect it performs is a fixed
stream write or a one-second suspension. -/
theorem no_failure_modes :
    mainE = Except.ok mainEvents ∧ mainEvents.all isFixedEffect = true :=
  ⟨rfl, by decide⟩

/-- C9: the program is deterministic and stateless across runs: against
any initial world, one run appends exactly the fixed stdout and stderr
sequences, and a second run appends the identical sequences again — no
state from the first run affects the second. -/
theorem deterministic_stateless (w : World) :
    (execRun w).outHist = w.outHist ++ stdoutLines
      ∧ (execRun w).errHist = w.errHist ++ stderrLines
      ∧ (execRun (execRun w)).outHist = w.outHist ++ stdoutLines ++ stdoutLines
      ∧ (execRun (execRun w)).errHist = w.errHist ++ stderrLines ++ stderrLines := by
  refine ⟨?_, ?_, ?_, ?_⟩ <;>
    simp [execRun, foldl_applyEvent_outHist, foldl_applyEvent_errHist,
      stdoutLines, stderrLines, List.append_assoc]

/-- Instantiation with the empty world: the two consecutive runs from a
fresh environment append two identical copies of both fixed streams. -/
theorem deterministic_stateless_witness :
    (execRun (World.mk [] [] 0)).outHist = ([] : List String) ++ stdoutLines
      ∧ (execRun (World.mk [] [] 0)).errHist = ([] : List String) ++ stderrLines
      ∧ (execRun (execRun (World.mk [] [] 0))).outHist
          = ([] : List String) ++ stdoutLines ++ stdoutLines
      ∧ (execRun (execRun (World.mk [] [] 0))).errHist
          = ([] : List String) ++ stderrLines ++ stderrLines :=
  deterministic_stateless (World.mk [] [] 0)

/-- C10: executing the module as the entry point performs the full
countdown, while importing it under any other module name performs no
effect at all: no output line and no suspension. -/
theorem import_has_no_effect :
    moduleTopLevel "__main__" = mainEvents
      ∧ ∀ name : String, name ≠ "__main__" → moduleTopLevel name = [] := by
  refine ⟨rfl, ?_⟩
  intro name h
  simp [moduleTopLevel, h]

/-- Importing the module under its own file name "main" emits nothing. -/
theorem import_has_no_effect_witness :
    moduleTopLevel "main" = [] :=
  import_has_no_effect.2 "main" (by decide)

end Maestro
